import Mathlib

/-!
Shallow embedding of the MultiProtCollector-SSH collection core.

Sources embedded:
- src/src/ssh_core.py : SSHCommand, SSHCredentials, CollectionTask,
  SSHCollector._apply_plugin_command_params, SSHCollector.collect_with_retry,
  MultiThreadSSHCollector.execute_batch_tasks
- src/src/utils.py : format_ssh_result, validate_ssh_params
- src/src/thread_pool_manager.py : ThreadPoolManager.execute_tasks_parallel
- src/addone/plugin_manager.py : PluginManager lookup / reload_plugins
- src/addone/huawei.py : DEVICE_CONFIG (the fields read by the resolver)

Python floats that only ever hold small decimal constants (delay_factor)
are modelled as rationals; machine integers stay Nat (no overflow is
reachable in the modelled code paths).  Network and filesystem effects are
replaced by explicit oracles (connect/command outcomes per attempt).
-/

/-- SSH command spec (pydantic model SSHCommand, ssh_core.py lines 34-39):
command text, optional expect_string (default None), delay_factor
(default 1.0) and max_loops (default 500). -/
structure SSHCommand where
  command : String
  expect_string : Option String := none
  delay_factor : ℚ := 1
  max_loops : ℕ := 500
deriving Repr, DecidableEq

/-- Generic per-device command parameters: the three keys of a plugin's
command_params dict that _apply_plugin_command_params reads; a field is
none when the key is absent from the dict. -/
structure CommandParams where
  expect_string : Option String := none
  delay_factor : Option ℚ := none
  max_loops : Option ℕ := none
deriving Repr, DecidableEq

/-- Entry of a plugin's per-command commands dict: the command text used
for matching (config_value.get with default empty string) plus the three
optional override keys. -/
structure CommandConfig where
  command : String := ""
  expect_string : Option String := none
  delay_factor : Option ℚ := none
  max_loops : Option ℕ := none
deriving Repr, DecidableEq

/-- Fields of a plugin DEVICE_CONFIG dict read by the Command Resolver:
the optional command_params dict and the optional ordered commands dict.
The remaining keys (connection_params, special_handling, device_info) are
never read by _apply_plugin_command_params and are not modelled. -/
structure DeviceConfig where
  command_params : Option CommandParams := none
  commands : Option (List (String × CommandConfig)) := none
deriving Repr, DecidableEq

/-- In-memory plugin table of PluginManager (self._plugins): an insertion
ordered dict from device_type to DEVICE_CONFIG, modelled as an
association list with distinct keys. -/
abbrev PluginTable : Type := List (String × DeviceConfig)

/-- PluginManager.has_plugin: device_type in self._plugins. -/
def hasPlugin (table : PluginTable) (device_type : String) : Bool :=
  table.any (fun kv => kv.1 = device_type)

/-- PluginManager.get_device_config: self._plugins.get(device_type). -/
def getDeviceConfig (table : PluginTable) (device_type : String) : Option DeviceConfig :=
  (table.find? (fun kv => kv.1 = device_type)).map (fun kv => kv.2)

/-- Python str.lower(), as used on ASCII command texts: lower-case every
character (exact for the ASCII command strings the plugins contain). -/
def pyLower (s : String) : String := ⟨s.data.map Char.toLower⟩

/-- Python str.strip() with no argument: drop whitespace from both ends. -/
def pyStrip (s : String) : String :=
  ⟨((s.data.dropWhile fun c => c.isWhitespace).reverse.dropWhile fun c => c.isWhitespace).reverse⟩

/-- First stage of one parameter-overlay block in
_apply_plugin_command_params: set command_dict.expect_string when the
caller's expect_string is None and the dict has the key. -/
def step_expect (orig : SSHCommand) (es : Option String) (d : SSHCommand) : SSHCommand :=
  match orig.expect_string, es with
  | none, some e => { d with expect_string := some e }
  | _, _ => d

/-- Second stage: set command_dict.delay_factor when the caller's
delay_factor equals the 1.0 sentinel and the dict has the key. -/
def step_delay (orig : SSHCommand) (df : Option ℚ) (d : SSHCommand) : SSHCommand :=
  if orig.delay_factor = 1 then
    match df with
    | some f => { d with delay_factor := f }
    | none => d
  else d

/-- Third stage: set command_dict.max_loops when the caller's max_loops
equals the 500 sentinel and the dict has the key. -/
def step_loops (orig : SSHCommand) (ml : Option ℕ) (d : SSHCommand) : SSHCommand :=
  if orig.max_loops = 500 then
    match ml with
    | some m => { d with max_loops := m }
    | none => d
  else d

/-- One overlay block of _apply_plugin_command_params (the same shape is
used for the generic command_params block, lines 72-83, and for the
matched per-command config block, lines 94-100): guards test the caller's
original fields, updates go to the accumulated command_dict. -/
def applyParams (orig : SSHCommand) (es : Option String) (df : Option ℚ)
    (ml : Option ℕ) (d : SSHCommand) : SSHCommand :=
  step_loops orig ml (step_delay orig df (step_expect orig es d))

/-- Lookup of ssh_core.py lines 91-101: first entry of the commands dict
whose command value, trimmed and lower-cased, equals the given name (the
loop breaks on the first match). -/
def findCommandConfig (cs : List (String × CommandConfig)) (name : String) :
    Option CommandConfig :=
  (cs.find? (fun kv => pyLower (pyStrip kv.2.command) = name)).map (fun kv => kv.2)

/-- Command Resolver, SSHCollector._apply_plugin_command_params
(ssh_core.py lines 59-103).  Returns the caller's spec unchanged when no
plugin exists for the device_type or the lookup yields nothing; otherwise
overlays the generic command_params and then the first matching
per-command config onto a copy of the spec, never touching fields whose
original value is non-default.  Split into three definitions below:
resolveGeneric is the generic command_params block (lines 72-83). -/
def resolveGeneric (device_config : DeviceConfig) (ssh_command : SSHCommand) : SSHCommand :=
  match device_config.command_params with
  | none => ssh_command
  | some p => applyParams ssh_command p.expect_string p.delay_factor p.max_loops ssh_command

/-- Chain of both overlay blocks of _apply_plugin_command_params for a
device config that was found: the generic block first (on the copy of the
caller's spec), then, when the per-command lookup matches, the matched
config's block on top of it. -/
def resolveWithConfig (device_config : DeviceConfig) (ssh_command : SSHCommand) : SSHCommand :=
  match device_config.commands with
  | none => resolveGeneric device_config ssh_command
  | some cs =>
    match findCommandConfig cs (pyLower (pyStrip ssh_command.command)) with
    | none => resolveGeneric device_config ssh_command
    | some cv => applyParams ssh_command cv.expect_string cv.delay_factor cv.max_loops
        (resolveGeneric device_config ssh_command)

def apply_plugin_command_params (table : PluginTable) (ssh_command : SSHCommand)
    (device_type : String) : SSHCommand :=
  if hasPlugin table device_type then
    match getDeviceConfig table device_type with
    | none => ssh_command
    | some device_config => resolveWithConfig device_config ssh_command
  else ssh_command

/-- Huawei plugin DEVICE_CONFIG (src/addone/huawei.py), restricted to the
fields the resolver reads: the command_params dict (lines 22-27) and the
five entries of the commands dict in source order (lines 30-61). -/
def huaweiDeviceConfig : DeviceConfig := {
  command_params := some { expect_string := some "]", delay_factor := some 3, max_loops := some 1000 },
  commands := some [
    ("display_version",
      { command := "display version", expect_string := some "]",
        delay_factor := some 2, max_loops := some 500 }),
    ("display_current",
      { command := "display current", expect_string := some "]",
        delay_factor := some 3, max_loops := some 1000 }),
    ("display_current_configuration",
      { command := "display current-configuration", expect_string := some "]",
        delay_factor := some 3, max_loops := some 2000 }),
    ("display_interface",
      { command := "display interface", expect_string := some "]",
        delay_factor := some 2, max_loops := some 800 }),
    ("display_ip_routing",
      { command := "display ip routing-table", expect_string := some "]",
        delay_factor := some 2, max_loops := some 500 })] }

/-- Cisco IOS plugin DEVICE_CONFIG (src/addone/cisco_ios.py), resolver
fields only. -/
def ciscoIosDeviceConfig : DeviceConfig := {
  command_params := some { expect_string := some "#", delay_factor := some (3/2), max_loops := some 500 },
  commands := some [
    ("show_version",
      { command := "show version", expect_string := some "#",
        delay_factor := some 1, max_loops := some 200 }),
    ("show_running_config",
      { command := "show running-config", expect_string := some "#",
        delay_factor := some 2, max_loops := some 800 }),
    ("show_interface",
      { command := "show interface", expect_string := some "#",
        delay_factor := some (3/2), max_loops := some 400 }),
    ("show_ip_route",
      { command := "show ip route", expect_string := some "#",
        delay_factor := some 1, max_loops := some 300 })] }

/-- H3C/HP Comware plugin DEVICE_CONFIG (src/addone/hp_comware.py),
resolver fields only. -/
def hpComwareDeviceConfig : DeviceConfig := {
  command_params := some { expect_string := some ">", delay_factor := some 2, max_loops := some 500 },
  commands := some [
    ("display_version",
      { command := "display version", expect_string := some ">",
        delay_factor := some (3/2), max_loops := some 300 }),
    ("display_current_configuration",
      { command := "display current-configuration", expect_string := some ">",
        delay_factor := some 2, max_loops := some 1000 }),
    ("display_interface",
      { command := "display interface", expect_string := some ">",
        delay_factor := some 2, max_loops := some 600 }),
    ("display_ip_routing",
      { command := "display ip routing-table", expect_string := some ">",
        delay_factor := some (3/2), max_loops := some 400 })] }

/-- Plugin table after PluginManager._load_plugins succeeds on the three
plugin files of src/addone (keys are the file stems). -/
def addonePlugins : PluginTable :=
  [("cisco_ios", ciscoIosDeviceConfig),
   ("hp_comware", hpComwareDeviceConfig),
   ("huawei", huaweiDeviceConfig)]

lemma step_expect_of_some (orig : SSHCommand) (es : Option String) (d : SSHCommand)
    (h : orig.expect_string ≠ none) : step_expect orig es d = d := by
  unfold step_expect
  cases ho : orig.expect_string with
  | none => exact absurd ho h
  | some e0 => cases es <;> rfl

lemma step_expect_delay (orig : SSHCommand) (es : Option String) (d : SSHCommand) :
    (step_expect orig es d).delay_factor = d.delay_factor := by
  unfold step_expect
  cases orig.expect_string <;> cases es <;> rfl

lemma step_expect_loops (orig : SSHCommand) (es : Option String) (d : SSHCommand) :
    (step_expect orig es d).max_loops = d.max_loops := by
  unfold step_expect
  cases orig.expect_string <;> cases es <;> rfl

lemma step_delay_of_ne (orig : SSHCommand) (df : Option ℚ) (d : SSHCommand)
    (h : orig.delay_factor ≠ 1) : step_delay orig df d = d := by
  unfold step_delay
  rw [if_neg h]

lemma step_delay_expect (orig : SSHCommand) (df : Option ℚ) (d : SSHCommand) :
    (step_delay orig df d).expect_string = d.expect_string := by
  unfold step_delay
  split
  · cases df <;> rfl
  · rfl

lemma step_delay_loops (orig : SSHCommand) (df : Option ℚ) (d : SSHCommand) :
    (step_delay orig df d).max_loops = d.max_loops := by
  unfold step_delay
  split
  · cases df <;> rfl
  · rfl

lemma step_loops_of_ne (orig : SSHCommand) (ml : Option ℕ) (d : SSHCommand)
    (h : orig.max_loops ≠ 500) : step_loops orig ml d = d := by
  unfold step_loops
  rw [if_neg h]

lemma step_loops_expect (orig : SSHCommand) (ml : Option ℕ) (d : SSHCommand) :
    (step_loops orig ml d).expect_string = d.expect_string := by
  unfold step_loops
  split
  · cases ml <;> rfl
  · rfl

lemma step_loops_delay (orig : SSHCommand) (ml : Option ℕ) (d : SSHCommand) :
    (step_loops orig ml d).delay_factor = d.delay_factor := by
  unfold step_loops
  split
  · cases ml <;> rfl
  · rfl

lemma applyParams_expect_of_some (orig : SSHCommand) (es : Option String)
    (df : Option ℚ) (ml : Option ℕ) (d : SSHCommand) (h : orig.expect_string ≠ none) :
    (applyParams orig es df ml d).expect_string = d.expect_string := by
  unfold applyParams
  rw [step_loops_expect, step_delay_expect, step_expect_of_some orig es d h]

lemma applyParams_delay_of_ne (orig : SSHCommand) (es : Option String)
    (df : Option ℚ) (ml : Option ℕ) (d : SSHCommand) (h : orig.delay_factor ≠ 1) :
    (applyParams orig es df ml d).delay_factor = d.delay_factor := by
  unfold applyParams
  rw [step_loops_delay, step_delay_of_ne orig df _ h, step_expect_delay]

lemma applyParams_loops_of_ne (orig : SSHCommand) (es : Option String)
    (df : Option ℚ) (ml : Option ℕ) (d : SSHCommand) (h : orig.max_loops ≠ 500) :
    (applyParams orig es df ml d).max_loops = d.max_loops := by
  unfold applyParams
  rw [step_loops_of_ne orig ml _ h, step_delay_loops, step_expect_loops]

lemma resolveGeneric_expect_of_some (cfg : DeviceConfig) (cmd : SSHCommand)
    (h : cmd.expect_string ≠ none) :
    (resolveGeneric cfg cmd).expect_string = cmd.expect_string := by
  unfold resolveGeneric
  cases cfg.command_params with
  | none => rfl
  | some p => exact applyParams_expect_of_some cmd _ _ _ cmd h

lemma resolveGeneric_delay_of_ne (cfg : DeviceConfig) (cmd : SSHCommand)
    (h : cmd.delay_factor ≠ 1) :
    (resolveGeneric cfg cmd).delay_factor = cmd.delay_factor := by
  unfold resolveGeneric
  cases cfg.command_params with
  | none => rfl
  | some p => exact applyParams_delay_of_ne cmd _ _ _ cmd h

lemma resolveGeneric_loops_of_ne (cfg : DeviceConfig) (cmd : SSHCommand)
    (h : cmd.max_loops ≠ 500) :
    (resolveGeneric cfg cmd).max_loops = cmd.max_loops := by
  unfold resolveGeneric
  cases cfg.command_params with
  | none => rfl
  | some p => exact applyParams_loops_of_ne cmd _ _ _ cmd h

lemma resolveWithConfig_expect_of_some (cfg : DeviceConfig) (cmd : SSHCommand)
    (h : cmd.expect_string ≠ none) :
    (resolveWithConfig cfg cmd).expect_string = cmd.expect_string := by
  unfold resolveWithConfig
  split
  · exact resolveGeneric_expect_of_some cfg cmd h
  · split
    · exact resolveGeneric_expect_of_some cfg cmd h
    · rw [applyParams_expect_of_some cmd _ _ _ _ h]
      exact resolveGeneric_expect_of_some cfg cmd h

lemma resolveWithConfig_delay_of_ne (cfg : DeviceConfig) (cmd : SSHCommand)
    (h : cmd.delay_factor ≠ 1) :
    (resolveWithConfig cfg cmd).delay_factor = cmd.delay_factor := by
  unfold resolveWithConfig
  split
  · exact resolveGeneric_delay_of_ne cfg cmd h
  · split
    · exact resolveGeneric_delay_of_ne cfg cmd h
    · rw [applyParams_delay_of_ne cmd _ _ _ _ h]
      exact resolveGeneric_delay_of_ne cfg cmd h

lemma resolveWithConfig_loops_of_ne (cfg : DeviceConfig) (cmd : SSHCommand)
    (h : cmd.max_loops ≠ 500) :
    (resolveWithConfig cfg cmd).max_loops = cmd.max_loops := by
  unfold resolveWithConfig
  split
  · exact resolveGeneric_loops_of_ne cfg cmd h
  · split
    · exact resolveGeneric_loops_of_ne cfg cmd h
    · rw [applyParams_loops_of_ne cmd _ _ _ _ h]
      exact resolveGeneric_loops_of_ne cfg cmd h

/-- Claim C1: any field of a CommandSpec carrying a non-default value
(expect_string some, delay_factor other than 1.0, max_loops other than
500) is returned unchanged by the Command Resolver for every plugin table
and every device_type; and when no plugin exists for the device_type the
caller's spec is returned unchanged. -/
theorem resolver_returns_explicit_fields_unchanged (table : PluginTable)
    (cmd : SSHCommand) (device_type : String) :
    (cmd.expect_string ≠ none →
      (apply_plugin_command_params table cmd device_type).expect_string = cmd.expect_string) ∧
    (cmd.delay_factor ≠ 1 →
      (apply_plugin_command_params table cmd device_type).delay_factor = cmd.delay_factor) ∧
    (cmd.max_loops ≠ 500 →
      (apply_plugin_command_params table cmd device_type).max_loops = cmd.max_loops) ∧
    (hasPlugin table device_type = false →
      apply_plugin_command_params table cmd device_type = cmd) := by
  refine ⟨?_, ?_, ?_, ?_⟩
  · intro h
    unfold apply_plugin_command_params
    split
    · split
      · rfl
      · exact resolveWithConfig_expect_of_some _ cmd h
    · rfl
  · intro h
    unfold apply_plugin_command_params
    split
    · split
      · rfl
      · exact resolveWithConfig_delay_of_ne _ cmd h
    · rfl
  · intro h
    unfold apply_plugin_command_params
    split
    · split
      · rfl
      · exact resolveWithConfig_loops_of_ne _ cmd h
    · rfl
  · intro h
    simp [apply_plugin_command_params, h]

/-- Witness for C1: a spec with every field explicitly non-default fed to
the loaded huawei plugin keeps all three fields, and an unknown
device_type returns the spec unchanged. -/
theorem resolver_returns_explicit_fields_unchanged_witness :
    (apply_plugin_command_params addonePlugins
      { command := "display current-configuration", expect_string := some ">",
        delay_factor := 2, max_loops := 600 } "huawei").expect_string = some ">" ∧
    (apply_plugin_command_params addonePlugins
      { command := "display current-configuration", expect_string := some ">",
        delay_factor := 2, max_loops := 600 } "huawei").delay_factor = 2 ∧
    (apply_plugin_command_params addonePlugins
      { command := "display current-configuration", expect_string := some ">",
        delay_factor := 2, max_loops := 600 } "huawei").max_loops = 600 ∧
    apply_plugin_command_params addonePlugins
      { command := "uptime" } "linux" = { command := "uptime" } := by
  obtain ⟨h1, h2, h3, -⟩ := resolver_returns_explicit_fields_unchanged addonePlugins
    { command := "display current-configuration", expect_string := some ">",
      delay_factor := 2, max_loops := 600 } "huawei"
  refine ⟨h1 (by decide), h2 (by decide), h3 (by decide), ?_⟩
  exact (resolver_returns_explicit_fields_unchanged addonePlugins
    { command := "uptime" } "linux").2.2.2 (by decide)

/-- Claim C8: for device_type huawei and command text
display current-configuration with all fields at their default sentinels,
the resolver returns the Huawei profile's command-specific override
(expect_string right bracket, delay_factor 3.0, max_loops 2000), the
per-command entry taking precedence over the generic command_params
(whose max_loops is only 1000). -/
theorem huawei_display_current_configuration_override :
    apply_plugin_command_params addonePlugins
      { command := "display current-configuration" } "huawei" =
    { command := "display current-configuration", expect_string := some "]",
      delay_factor := 3, max_loops := 2000 } := by decide

/-- Result dict of SSHCollector.execute_command (ssh_core.py lines
233-249): command text, output, success flag and, on the failure path,
the error message (the host key is not needed by any claim and is kept in
the surrounding task data instead). -/
structure CmdResult where
  command : String
  output : String
  success : Bool
  error : Option String := none
deriving Repr, DecidableEq

/-- Oracles standing in for the network and the configuration: whether
the connect of a given 0-based attempt raises, the message of the
exception it raises when it does, the outcome/output/error of each
command by list position once a session is up, and
settings.ssh_retry_delay (config.py line 50, default 1). -/
structure SSHEnv where
  retry_delay : ℕ
  connectOk : ℕ → Bool
  connectErr : ℕ → String
  cmdOk : ℕ → Bool
  cmdOut : ℕ → String
  cmdErr : ℕ → String

/-- CollectionTask (ssh_core.py lines 42-48) restricted to the fields
collect_with_retry reads: task_id, the credentials host, the command list
and retry_count. -/
structure CollectionTask where
  task_id : String
  host : String
  commands : List SSHCommand
  retry_count : ℕ
deriving Repr

/-- SSHCollector.execute_command on a live session: the netmiko call
either yields output (success dict) or raises, in which case the except
branch returns a failure dict with empty output and an error message;
the i-th command's fate comes from the oracle. -/
def execute_command (env : SSHEnv) (i : ℕ) (c : SSHCommand) : CmdResult :=
  if env.cmdOk i then
    { command := c.command, output := env.cmdOut i, success := true }
  else
    { command := c.command, output := "",
      success := false, error := some ("命令执行失败: " ++ env.cmdErr i) }

/-- SSHCollector.execute_commands (ssh_core.py lines 252-269): every
command in the list is executed in order and its result appended; a
failed command is logged and the loop continues with the next command. -/
def execute_commands (env : SSHEnv) (cmds : List SSHCommand) : List CmdResult :=
  cmds.enum.map (fun ic => execute_command env ic.1 ic.2)

/-- Inner result_data dict built by collect_with_retry on a successful
attempt (ssh_core.py lines 330-339), minus the wall-clock
execution_time. -/
structure ResultData where
  task_id : String
  host : String
  total_commands : ℕ
  success_commands : ℕ
  failed_commands : ℕ
  results : List CmdResult
  attempt : ℕ
deriving Repr, DecidableEq

/-- Dict returned by format_ssh_result (utils.py lines 166-180), minus
the timestamp and collector_id bookkeeping fields: data key present only
on success with non-None data, error key present only on failure with a
truthy (non-None, nonempty) error string. -/
structure TaskResult where
  success : Bool
  data : Option ResultData := none
  error : Option String := none
deriving Repr, DecidableEq

/-- utils.format_ssh_result: the success flag is stored as passed; data
is attached only when success and data is not None; error is attached
only when not success and error is truthy. -/
def format_ssh_result (success : Bool) (data : Option ResultData)
    (error : Option String) : TaskResult :=
  { success := success,
    data := if success then data else none,
    error := if success then none else
      match error with
      | none => none
      | some e => if e = "" then none else some e }

/-- Python str(None). -/
def strOfOption : Option String → String
  | none => "None"
  | some s => s

/-- Error message of the all-retries-failed path (ssh_core.py lines
370 and 384-387): the f-string interpolating task_id, retry_count and
str(last_error). -/
def mkFailMsg (task_id : String) (retry_count : ℕ) (last_error : String) : String :=
  ("采集任务 " ++ task_id ++ " 执行失败，已重试 ") ++ toString retry_count ++
    (" 次: " ++ last_error)

/-- Outcome of the retry loop of collect_with_retry: how many connect
attempts ran, the sleep durations performed between attempts in order,
whether some attempt connected, and the last_error variable when none
did. -/
structure LoopOutcome where
  attempts : ℕ
  sleeps : List ℕ
  connected : Bool
  last_error : Option String
deriving Repr, DecidableEq

/-- Retry loop of collect_with_retry (ssh_core.py lines 308-366), with
the current 0-based attempt index and the number of remaining iterations
of range(task.retry_count).  A successful connect runs the commands and
returns (no further attempts); a connect exception stores last_error and,
unless this was the last iteration, sleeps retry_delay * (attempt + 1).
On the success path last_error is dropped because the produced result
never reads it. -/
def retryLoop (env : SSHEnv) : ℕ → ℕ → LoopOutcome
  | _, 0 => { attempts := 0, sleeps := [], connected := false, last_error := none }
  | attempt, remaining + 1 =>
    if env.connectOk attempt then
      { attempts := 1, sleeps := [], connected := true, last_error := none }
    else if remaining = 0 then
      { attempts := 1, sleeps := [], connected := false,
        last_error := some (env.connectErr attempt) }
    else
      let rest := retryLoop env (attempt + 1) remaining
      { attempts := rest.attempts + 1,
        sleeps := env.retry_delay * (attempt + 1) :: rest.sleeps,
        connected := rest.connected,
        last_error := rest.last_error }

/-- Observable trace of one collect_with_retry call: connect attempts
made, sleeps performed, and the returned dict. -/
structure RetryTrace where
  attempts : ℕ
  sleeps : List ℕ
  result : TaskResult
deriving Repr

/-- SSHCollector.collect_with_retry (ssh_core.py lines 284-387), with
the database lifecycle calls (create_task_record / update_task_status /
complete_task, all wrapped in try/except and irrelevant to the returned
value) elided.  If some attempt connects, the commands all run, the
result_data dict is built and returned through format_ssh_result with
success True; otherwise the failure message interpolating retry_count
and str(last_error) is returned with success False. -/
def collect_with_retry (env : SSHEnv) (task : CollectionTask) : RetryTrace :=
  let o := retryLoop env 0 task.retry_count
  if o.connected then
    let results := execute_commands env task.commands
    let success_count := (results.filter (fun r => r.success)).length
    { attempts := o.attempts, sleeps := o.sleeps,
      result := format_ssh_result true
        (some { task_id := task.task_id, host := task.host,
                total_commands := results.length,
                success_commands := success_count,
                failed_commands := results.length - success_count,
                results := results,
                attempt := o.attempts }) none }
  else
    { attempts := o.attempts, sleeps := o.sleeps,
      result := format_ssh_result false none
        (some (mkFailMsg task.task_id task.retry_count (strOfOption o.last_error))) }

lemma mkFailMsg_length (task_id : String) (retry_count : ℕ) (last_error : String) :
    (mkFailMsg task_id retry_count last_error).length =
      ("采集任务 " ++ task_id ++ " 执行失败，已重试 ").length +
        (toString retry_count).length + (" 次: " ++ last_error).length := by
  unfold mkFailMsg
  rw [String.length_append, String.length_append]

lemma mkFailMsg_ne_empty (task_id : String) (retry_count : ℕ) (last_error : String) :
    mkFailMsg task_id retry_count last_error ≠ "" := by
  intro h
  have hlen : (mkFailMsg task_id retry_count last_error).length = 0 := by
    rw [h]
    rfl
  rw [mkFailMsg_length] at hlen
  have h5 : ("采集任务 " ++ task_id ++ " 执行失败，已重试 ").length =
      ("采集任务 " : String).length + task_id.length + (" 执行失败，已重试 " : String).length := by
    rw [String.length_append, String.length_append]
  have h6 : ("采集任务 " : String).length = 5 := rfl
  omega

lemma sleeps_shift (delay a m : ℕ) :
    delay * (a + 1) :: (List.range m).map (fun i => delay * (a + 1 + i + 1)) =
    (List.range (m + 1)).map (fun i => delay * (a + i + 1)) := by
  rw [List.range_succ_eq_map, List.map_cons, List.map_map]
  have hfun : (fun i => delay * (a + 1 + i + 1)) =
      ((fun i => delay * (a + i + 1)) ∘ Nat.succ) := by
    funext i
    simp only [Function.comp_apply, Nat.succ_eq_add_one]
    congr 1
    omega
  rw [hfun]

lemma retryLoop_all_fail (env : SSHEnv) (hfail : ∀ i, env.connectOk i = false) :
    ∀ r a, 1 ≤ r →
      retryLoop env a r =
        { attempts := r,
          sleeps := (List.range (r - 1)).map (fun i => env.retry_delay * (a + i + 1)),
          connected := false,
          last_error := some (env.connectErr (a + r - 1)) } := by
  intro r
  induction r with
  | zero => intro a h; exact absurd h (by omega)
  | succ n ih =>
    intro a _
    rcases Nat.eq_zero_or_pos n with hn | hn
    · subst hn
      simp [retryLoop, hfail a]
    · obtain ⟨m, rfl⟩ : ∃ m, n = m + 1 := ⟨n - 1, by omega⟩
      have hrest := ih (a + 1) hn
      rw [retryLoop, hfail a]
      simp only [Bool.false_eq_true, if_false, Nat.succ_ne_zero, hrest]
      simp only [LoopOutcome.mk.injEq, true_and, and_true]
      refine ⟨?_, ?_⟩
      · exact sleeps_shift env.retry_delay a m
      · rw [show a + 1 + (m + 1) - 1 = a + (m + 1 + 1) - 1 by omega]

lemma retryLoop_first_success (env : SSHEnv) :
    ∀ k a r, k < r → (∀ i, i < k → env.connectOk (a + i) = false) →
      env.connectOk (a + k) = true →
      retryLoop env a r =
        { attempts := k + 1,
          sleeps := (List.range k).map (fun i => env.retry_delay * (a + i + 1)),
          connected := true,
          last_error := none } := by
  intro k
  induction k with
  | zero =>
    intro a r hr hfail hsucc
    obtain ⟨m, rfl⟩ : ∃ m, r = m + 1 := ⟨r - 1, by omega⟩
    have ha : env.connectOk a = true := hsucc
    rw [retryLoop, ha]
    simp
  | succ k ih =>
    intro a r hr hfail hsucc
    obtain ⟨m, rfl⟩ : ∃ m, r = m + 1 := ⟨r - 1, by omega⟩
    have hfa : env.connectOk a = false := by simpa using hfail 0 (by omega)
    have hm : ¬ m = 0 := by omega
    have hrest := ih (a + 1) m (by omega)
      (fun i hi => by
        rw [show a + 1 + i = a + (i + 1) by omega]
        exact hfail (i + 1) (by omega))
      (by
        rw [show a + 1 + k = a + (k + 1) by omega]
        exact hsucc)
    rw [retryLoop, hfa]
    simp only [Bool.false_eq_true, if_false, hm, hrest]
    simp only [LoopOutcome.mk.injEq, true_and, and_true]
    exact sleeps_shift env.retry_delay a k

lemma execute_command_command (env : SSHEnv) (i : ℕ) (c : SSHCommand) :
    (execute_command env i c).command = c.command := by
  unfold execute_command
  split <;> rfl

lemma execute_commands_commands (env : SSHEnv) (cmds : List SSHCommand) :
    (execute_commands env cmds).map (fun r => r.command) =
      cmds.map (fun c => c.command) := by
  unfold execute_commands
  rw [List.map_map]
  have hfun : ((fun r : CmdResult => r.command) ∘ fun ic : ℕ × SSHCommand =>
      execute_command env ic.1 ic.2) = (fun c : SSHCommand => c.command) ∘ Prod.snd := by
    funext ic
    simp only [Function.comp_apply]
    exact execute_command_command env ic.1 ic.2
  rw [hfun, ← List.map_map, List.enum_map_snd]

lemma execute_commands_length (env : SSHEnv) (cmds : List SSHCommand) :
    (execute_commands env cmds).length = cmds.length := by
  unfold execute_commands
  rw [List.length_map, List.enum_length]

/-- Claim C2: when every connect attempt raises and retry_count is at
least 1, collect_with_retry makes exactly retry_count connection
attempts, returns success false with an error message that interpolates
the attempt count, and sleeps retry_delay * attempt_number between
consecutive attempts (linear backoff, no sleep after the last attempt:
retry_count - 1 sleeps in total). -/
theorem collect_retry_all_attempts_fail (env : SSHEnv) (task : CollectionTask)
    (hR : 1 ≤ task.retry_count) (hfail : ∀ i, env.connectOk i = false) :
    (collect_with_retry env task).attempts = task.retry_count ∧
    (collect_with_retry env task).result.success = false ∧
    (∃ s1 s2, (collect_with_retry env task).result.error =
      some (s1 ++ toString task.retry_count ++ s2)) ∧
    (collect_with_retry env task).sleeps =
      (List.range (task.retry_count - 1)).map (fun i => env.retry_delay * (i + 1)) := by
  have hloop := retryLoop_all_fail env hfail task.retry_count 0 hR
  unfold collect_with_retry
  rw [hloop]
  simp only [Bool.false_eq_true, if_false]
  refine ⟨trivial, rfl, ?_, ?_⟩
  · refine ⟨"采集任务 " ++ task.task_id ++ " 执行失败，已重试 ",
      " 次: " ++ env.connectErr (0 + task.retry_count - 1), ?_⟩
    simp only [format_ssh_result, strOfOption, Bool.false_eq_true, if_false]
    rw [if_neg (mkFailMsg_ne_empty _ _ _)]
    rfl
  · have hfun : (fun i => env.retry_delay * (0 + i + 1)) =
        (fun i => env.retry_delay * (i + 1)) := by
      funext i
      congr 1
      omega
    rw [hfun]

/-- Test fixture: an environment whose connect raises on every attempt
and whose retry delay is the config default 1. -/
def envAllFail : SSHEnv :=
  { retry_delay := 1,
    connectOk := fun _ => false,
    connectErr := fun _ => "SSH连接超时: timed out",
    cmdOk := fun _ => true,
    cmdOut := fun _ => "ok",
    cmdErr := fun _ => "" }

/-- Test fixture: connect raises on attempt 0 and succeeds on attempt 1;
the first command succeeds, the second raises. -/
def envSecondTry : SSHEnv :=
  { retry_delay := 1,
    connectOk := fun i => decide (i = 1),
    connectErr := fun _ => "SSH连接失败: unreachable",
    cmdOk := fun i => decide (i = 0),
    cmdOut := fun _ => "output line",
    cmdErr := fun _ => "read timeout" }

/-- Test fixture: a task with two commands and a retry budget of 3. -/
def taskThree : CollectionTask :=
  { task_id := "task-1", host := "192.0.2.1",
    commands := [{ command := "display version" }, { command := "display current" }],
    retry_count := 3 }

/-- Test fixture: a one-command task with retry_count 0. -/
def taskZero : CollectionTask :=
  { task_id := "task-0", host := "192.0.2.1",
    commands := [{ command := "display version" }], retry_count := 0 }

/-- Witness for C2: with the always-failing environment and retry
budget 3, exactly 3 attempts run, the call fails, and the sleeps are
1 * 1 and 1 * 2 seconds. -/
theorem collect_retry_all_attempts_fail_witness :
    (collect_with_retry envAllFail taskThree).attempts = 3 ∧
    (collect_with_retry envAllFail taskThree).result.success = false ∧
    (collect_with_retry envAllFail taskThree).sleeps = [1, 2] := by
  obtain ⟨h1, h2, -, h4⟩ := collect_retry_all_attempts_fail envAllFail taskThree
    (by decide) (fun i => rfl)
  refine ⟨h1, h2, ?_⟩
  rw [h4]
  rfl

/-- Claim C3: when the first k attempts raise on connect and attempt k
(0-based; the claim's 1-based attempt k+1 <= R) connects, the call
returns success true after exactly k + 1 attempts with no further
attempts; all commands still run in order (one result per command, texts
preserved) and per-command failures only show up inside the
overall-success result data. -/
theorem collect_retry_success_at_k (env : SSHEnv) (task : CollectionTask) (k : ℕ)
    (hk : k < task.retry_count)
    (hfail : ∀ i, i < k → env.connectOk i = false)
    (hsucc : env.connectOk k = true) :
    (collect_with_retry env task).attempts = k + 1 ∧
    (collect_with_retry env task).result.success = true ∧
    (collect_with_retry env task).result.error = none ∧
    (collect_with_retry env task).result.data =
      some { task_id := task.task_id, host := task.host,
             total_commands := (execute_commands env task.commands).length,
             success_commands :=
               ((execute_commands env task.commands).filter (fun r => r.success)).length,
             failed_commands := (execute_commands env task.commands).length -
               ((execute_commands env task.commands).filter (fun r => r.success)).length,
             results := execute_commands env task.commands,
             attempt := k + 1 } ∧
    (execute_commands env task.commands).map (fun r => r.command) =
      task.commands.map (fun c => c.command) ∧
    (execute_commands env task.commands).length = task.commands.length := by
  have hloop := retryLoop_first_success env k 0 task.retry_count hk
    (fun i hi => by rw [Nat.zero_add]; exact hfail i hi)
    (by rw [Nat.zero_add]; exact hsucc)
  unfold collect_with_retry
  rw [hloop]
  exact ⟨rfl, rfl, rfl, rfl, execute_commands_commands env task.commands,
    execute_commands_length env task.commands⟩

/-- Witness for C3: connect succeeds on the second attempt of a
3-attempt budget, so exactly 2 attempts run and the call succeeds even
though the second of the two commands fails. -/
theorem collect_retry_success_at_k_witness :
    (collect_with_retry envSecondTry taskThree).attempts = 2 ∧
    (collect_with_retry envSecondTry taskThree).result.success = true ∧
    (execute_commands envSecondTry taskThree.commands).map (fun r => r.success) =
      [true, false] := by
  obtain ⟨h1, h2, -, -, -, -⟩ := collect_retry_success_at_k envSecondTry taskThree 1
    (by decide)
    (fun i hi => by
      have hi0 : i = 0 := by omega
      subst hi0
      rfl)
    rfl
  exact ⟨h1, h2, rfl⟩

/-- Claim C9: the dict collect_with_retry returns always pairs the
success flag with exactly one payload key: data is present (and error
absent) exactly when success is true, error is present (and data absent)
exactly when success is false. -/
theorem collect_retry_result_shape (env : SSHEnv) (task : CollectionTask) :
    ((collect_with_retry env task).result.success = true →
      (collect_with_retry env task).result.data ≠ none ∧
      (collect_with_retry env task).result.error = none) ∧
    ((collect_with_retry env task).result.success = false →
      (collect_with_retry env task).result.error ≠ none ∧
      (collect_with_retry env task).result.data = none) := by
  unfold collect_with_retry
  cases hc : (retryLoop env 0 task.retry_count).connected
  · simp only [hc, Bool.false_eq_true, if_false]
    refine ⟨fun h => absurd h (by simp [format_ssh_result]), fun _ => ⟨?_, rfl⟩⟩
    simp only [format_ssh_result, strOfOption, Bool.false_eq_true, if_false]
    rw [if_neg (mkFailMsg_ne_empty _ _ _)]
    simp
  · simp only [hc, if_true]
    refine ⟨fun _ => ⟨by simp [format_ssh_result], rfl⟩,
      fun h => absurd h (by simp [format_ssh_result])⟩

/-- Witness for C9: on the all-fail fixture the returned dict is a
failure, so it carries an error and no data; on the second-try fixture
it is a success, so it carries data and no error. -/
theorem collect_retry_result_shape_witness :
    ((collect_with_retry envAllFail taskThree).result.error ≠ none ∧
      (collect_with_retry envAllFail taskThree).result.data = none) ∧
    ((collect_with_retry envSecondTry taskThree).result.data ≠ none ∧
      (collect_with_retry envSecondTry taskThree).result.error = none) := by
  exact ⟨(collect_retry_result_shape envAllFail taskThree).2 rfl,
    (collect_retry_result_shape envSecondTry taskThree).1 rfl⟩

/-- Claim C10: with retry_count 0 the range-based loop body never runs:
zero connection attempts, zero sleeps, and an immediate failure dict
whose message interpolates the 0 retry count and str(None) for the
never-assigned last_error. -/
theorem collect_retry_zero_attempts (env : SSHEnv) (task : CollectionTask)
    (h : task.retry_count = 0) :
    (collect_with_retry env task).attempts = 0 ∧
    (collect_with_retry env task).sleeps = [] ∧
    (collect_with_retry env task).result.success = false ∧
    (collect_with_retry env task).result.data = none ∧
    (collect_with_retry env task).result.error =
      some (mkFailMsg task.task_id 0 "None") := by
  unfold collect_with_retry
  rw [h]
  rw [show retryLoop env 0 0 =
    { attempts := 0, sleeps := [], connected := false, last_error := none } from rfl]
  refine ⟨rfl, rfl, rfl, rfl, ?_⟩
  simp only [format_ssh_result, strOfOption, Bool.false_eq_true, if_false]
  rw [if_neg (mkFailMsg_ne_empty _ _ _)]

/-- Witness for C10: the concrete zero-retry task returns at once with
0 attempts and the failure message naming 0 retries and None. -/
theorem collect_retry_zero_attempts_witness :
    (collect_with_retry envAllFail taskZero).attempts = 0 ∧
    (collect_with_retry envAllFail taskZero).sleeps = [] ∧
    (collect_with_retry envAllFail taskZero).result.success = false ∧
    (collect_with_retry envAllFail taskZero).result.data = none ∧
    (collect_with_retry envAllFail taskZero).result.error =
      some (mkFailMsg "task-0" 0 "None") :=
  collect_retry_zero_attempts envAllFail taskZero rfl

/-- SSHCredentials (ssh_core.py lines 23-31): pydantic model with
required host and username, optional password and private_key, and
defaulted port, device_type and timeout. -/
structure SSHCredentials where
  host : String
  port : ℕ
  username : String
  password : Option String
  private_key : Option String
  device_type : String
  timeout : ℕ
deriving Repr, DecidableEq

/-- Pydantic construction of SSHCredentials: creation fails exactly when
a required field (host or username, declared with Field ellipsis) is
missing; every other field falls back to its declared default, and no
validator inspects password or private_key at creation time. -/
def SSHCredentials.construct (host : Option String) (port : Option ℕ)
    (username : Option String) (password : Option String)
    (private_key : Option String) (device_type : Option String)
    (timeout : Option ℕ) : Option SSHCredentials :=
  match host, username with
  | some h, some u =>
    some { host := h, port := port.getD 22, username := u,
           password := password, private_key := private_key,
           device_type := device_type.getD "linux", timeout := timeout.getD 30 }
  | _, _ => none

/-- Python truthiness of an optional string: None and the empty string
are falsy. -/
def pyTruthy : Option String → Bool
  | none => false
  | some s => decide (s ≠ "")

/-- utils.validate_ssh_params (utils.py lines 183-191): False when host
or username is falsy, False when neither password nor private_key is
truthy, True otherwise.  SSHCollector.connect calls it before any
network activity. -/
def validate_ssh_params (host username : String)
    (password private_key : Option String) : Bool :=
  if host = "" ∨ username = "" then false
  else if pyTruthy password = false ∧ pyTruthy private_key = false then false
  else true

/-- Counterexample to claim C6: pydantic happily constructs
SSHCredentials with neither password nor private_key, so creation does
not fail when both authentication methods are absent; only host and
username are required at creation time. -/
theorem credentials_without_auth_construct :
    SSHCredentials.construct (some "192.0.2.10") none (some "admin")
      none none none none =
    some { host := "192.0.2.10", port := 22, username := "admin",
           password := none, private_key := none,
           device_type := "linux", timeout := 30 } := rfl

/-- Claim C6 amended: constructing SSHCredentials fails exactly when
host or username is missing; an object with neither password nor
private_key is constructible, and the missing authentication is only
rejected later, by validate_ssh_params inside connect, before any
network I/O. -/
theorem credentials_validation_split (host username : Option String)
    (password private_key : Option String) :
    ((SSHCredentials.construct host none username password private_key
        none none).isSome ↔ host.isSome ∧ username.isSome) ∧
    (∀ c, SSHCredentials.construct host none username none none none none = some c →
      validate_ssh_params c.host c.username c.password c.private_key = false) := by
  constructor
  · cases host <;> cases username <;> simp [SSHCredentials.construct]
  · intro c hc
    cases host with
    | none => simp [SSHCredentials.construct] at hc
    | some h =>
      cases username with
      | none => simp [SSHCredentials.construct] at hc
      | some u =>
        simp only [SSHCredentials.construct, Option.some.injEq] at hc
        subst hc
        unfold validate_ssh_params
        split
        · rfl
        · rfl

/-- Witness for C6 amended: concrete credentials with host and username
but no authentication method construct successfully yet fail
validate_ssh_params. -/
theorem credentials_validation_split_witness :
    validate_ssh_params "192.0.2.10" "admin" none none = false :=
  (credentials_validation_split (some "192.0.2.10") (some "admin") none none).2
    { host := "192.0.2.10", port := 22, username := "admin", password := none,
      private_key := none, device_type := "linux", timeout := 30 } rfl

/-- Per-task entry of the results list that execute_batch_tasks
aggregates: the keys its sums read through r.get (success flag and the
three command counters, each defaulting to 0 when absent). -/
structure BatchTaskEntry where
  task_id : String
  success : Bool
  total_commands : ℕ := 0
  success_commands : ℕ := 0
  failed_commands : ℕ := 0
deriving Repr, DecidableEq

/-- Summary block of the batch_result dict (ssh_core.py lines 602-609). -/
structure BatchSummary where
  total_tasks : ℕ
  success_tasks : ℕ
  failed_tasks : ℕ
  total_commands : ℕ
  success_commands : ℕ
  failed_commands : ℕ
deriving Repr, DecidableEq

/-- batch_result dict of execute_batch_tasks (ssh_core.py lines
596-611), minus batch_id, execution_time and the threading bookkeeping
keys. -/
structure BatchResult where
  success : Bool
  summary : BatchSummary
  task_results : List BatchTaskEntry
deriving Repr, DecidableEq

/-- Aggregation tail of MultiThreadSSHCollector.execute_batch_tasks
(ssh_core.py lines 586-616) applied to the per-task results list that
the serial or parallel dispatch produced (one entry per task either
way): success_tasks counts entries with a true success flag,
failed_tasks is the difference, the command counters are summed, and the
top-level success key is the literal True of line 597. -/
def execute_batch_tasks (results : List BatchTaskEntry) : BatchResult :=
  { success := true,
    summary :=
      { total_tasks := results.length,
        success_tasks := (results.filter (fun r => r.success)).length,
        failed_tasks := results.length - (results.filter (fun r => r.success)).length,
        total_commands := (results.map (fun r => r.total_commands)).sum,
        success_commands := (results.map (fun r => r.success_commands)).sum,
        failed_commands := (results.map (fun r => r.failed_commands)).sum },
    task_results := results }

/-- Test fixture: three tasks that all failed every retry. -/
def threeFailedEntries : List BatchTaskEntry :=
  [{ task_id := "b-1", success := false, total_commands := 1, failed_commands := 1 },
   { task_id := "b-2", success := false, total_commands := 1, failed_commands := 1 },
   { task_id := "b-3", success := false, total_commands := 1, failed_commands := 1 }]

/-- Test fixture: three tasks of which two succeeded and one failed. -/
def twoOkOneFailEntries : List BatchTaskEntry :=
  [{ task_id := "b-1", success := true, total_commands := 1, success_commands := 1 },
   { task_id := "b-2", success := true, total_commands := 1, success_commands := 1 },
   { task_id := "b-3", success := false, total_commands := 1, failed_commands := 1 }]

/-- Counterexample to claim C5: a batch whose three tasks all failed
still carries success true (the literal of ssh_core.py line 597), while
the claim requires success false whenever success_count is 0. -/
theorem batch_success_flag_all_failed :
    (execute_batch_tasks threeFailedEntries).success = true ∧
    (execute_batch_tasks threeFailedEntries).summary.success_tasks = 0 ∧
    (execute_batch_tasks threeFailedEntries).summary.failed_tasks = 3 := by
  exact ⟨rfl, rfl, rfl⟩

/-- Claim C5 amended: BatchResult.success is the constant true whatever
the per-task outcomes (it signals that the batch call ran, not that any
task succeeded); task failures are visible only through the summary
counters, which always split total_tasks into success_tasks plus
failed_tasks.  The claimed 2-of-3 scenario does yield success true with
failed_tasks 1, but the all-fail batch yields success true as well. -/
theorem batch_success_flag_constant (results : List BatchTaskEntry) :
    (execute_batch_tasks results).success = true ∧
    (execute_batch_tasks results).summary.success_tasks +
      (execute_batch_tasks results).summary.failed_tasks = results.length ∧
    (execute_batch_tasks results).task_results = results ∧
    (execute_batch_tasks twoOkOneFailEntries).success = true ∧
    (execute_batch_tasks twoOkOneFailEntries).summary.failed_tasks = 1 := by
  refine ⟨rfl, ?_, rfl, rfl, rfl⟩
  have hle := List.length_filter_le (fun r : BatchTaskEntry => r.success) results
  simp only [execute_batch_tasks]
  omega

/-- Fate of one submitted future in the parallel branch of
execute_tasks_parallel: completed with the task function's result dict,
completed with the task function raising (the exception is stored in the
future and re-raised by future.result()), or still unfinished when the
pool-wide timeout expires. -/
inductive FutureOutcome (α : Type) where
  | completed (r : α) : FutureOutcome α
  | raised (e : String) : FutureOutcome α
  | unfinished : FutureOutcome α
deriving Repr, DecidableEq

def FutureOutcome.isUnfinished {α : Type} : FutureOutcome α → Bool
  | FutureOutcome.unfinished => true
  | _ => false

/-- Result slot appended by the collection loop for one yielded future
(thread_pool_manager.py lines 140-151): the value of future.result(), or
the task_id / success False / error dict built in the except branch when
future.result() re-raises. -/
inductive PoolSlot (α : Type) where
  | ok (r : α) : PoolSlot α
  | failed (task_id : String) (error : String) : PoolSlot α
deriving Repr, DecidableEq

/-- Slot produced for a yielded future; as_completed only ever yields
completed futures, so an unfinished future produces no slot at all. -/
def futureSlot? {α : Type} (task_id : String) : FutureOutcome α → Option (PoolSlot α)
  | FutureOutcome.completed r => some (PoolSlot.ok r)
  | FutureOutcome.raised e => some (PoolSlot.failed task_id e)
  | FutureOutcome.unfinished => none

/-- Parallel branch of ThreadPoolManager.execute_tasks_parallel
(thread_pool_manager.py lines 123-153).  concurrent.futures.as_completed
yields each future as it completes (here: submitted pairs in completion
order); the try/except around future.result() converts a task-function
exception into a failed result dict and the loop continues.  But when
some future is still unfinished at the pool-wide timeout, the
as_completed iterator itself raises TimeoutError at the for statement;
nothing in the function catches it (the except only wraps
future.result()), so the whole call raises and the collected results
list is lost. -/
def execute_tasks_parallel {α : Type} (tasks : List (String × FutureOutcome α)) :
    Except String (List (PoolSlot α)) :=
  if tasks.any (fun t => t.2.isUnfinished) then
    Except.error "TimeoutError: futures unfinished within pool timeout"
  else
    Except.ok (tasks.filterMap (fun t => futureSlot? t.1 t.2))

/-- Test fixture: the task result of a pool task that completed. -/
def okEntry : BatchTaskEntry :=
  { task_id := "p-1", success := true, total_commands := 1, success_commands := 1 }

/-- Counterexample to claim C4: with two dispatched tasks of which the
second never finishes within the pool-wide timeout, the whole
execute_tasks_parallel call raises TimeoutError instead of returning a
batch with a failed slot for the stuck task. -/
theorem pool_timeout_aborts_batch :
    execute_tasks_parallel
      [("p-1", FutureOutcome.completed okEntry),
       ("p-2", (FutureOutcome.unfinished : FutureOutcome BatchTaskEntry))] =
    Except.error "TimeoutError: futures unfinished within pool timeout" := rfl

lemma futureSlot?_isSome {α : Type} (task_id : String) (o : FutureOutcome α)
    (h : o.isUnfinished = false) : (futureSlot? task_id o).isSome = true := by
  cases o with
  | completed r => rfl
  | raised e => rfl
  | unfinished => exact absurd h (by simp [FutureOutcome.isUnfinished])

lemma filterMap_slots_length {α : Type} :
    ∀ tasks : List (String × FutureOutcome α),
      (∀ t ∈ tasks, t.2.isUnfinished = false) →
      (tasks.filterMap (fun t => futureSlot? t.1 t.2)).length = tasks.length := by
  intro tasks
  induction tasks with
  | nil => intro _; rfl
  | cons t ts ih =>
    intro h
    have ht := h t (List.mem_cons_self t ts)
    have hts := fun x hx => h x (List.mem_cons_of_mem t hx)
    rw [List.filterMap_cons]
    cases ho : futureSlot? t.1 t.2 with
    | none =>
      have hs := futureSlot?_isSome t.1 t.2 ht
      rw [ho] at hs
      simp at hs
    | some s =>
      simp only [List.length_cons, ih hts]

/-- Claim C4 amended: in parallel mode a dispatched task whose task
function raised is converted into a failed slot and the batch continues
to a full result list with one slot per dispatched task; but a task that
does not complete within the pool-wide timeout makes the uncaught
as_completed TimeoutError abort the whole batch call, so no result list
is returned at all. -/
theorem pool_exception_converted_timeout_raises {α : Type}
    (tasks : List (String × FutureOutcome α)) :
    ((∀ t ∈ tasks, t.2.isUnfinished = false) →
      execute_tasks_parallel tasks =
        Except.ok (tasks.filterMap (fun t => futureSlot? t.1 t.2)) ∧
      (tasks.filterMap (fun t => futureSlot? t.1 t.2)).length = tasks.length ∧
      (∀ tid e, futureSlot? tid (FutureOutcome.raised e : FutureOutcome α) =
        some (PoolSlot.failed tid e))) ∧
    ((∃ t ∈ tasks, t.2.isUnfinished = true) →
      ∀ rs, execute_tasks_parallel tasks ≠ Except.ok rs) := by
  constructor
  · intro h
    have hany : tasks.any (fun t => t.2.isUnfinished) = false := by
      rw [List.any_eq_false]
      intro t ht
      simp [h t ht]
    refine ⟨?_, filterMap_slots_length tasks h, fun tid e => rfl⟩
    simp [execute_tasks_parallel, hany]
  · rintro ⟨t, ht, hu⟩ rs
    have hany : tasks.any (fun t => t.2.isUnfinished) = true :=
      List.any_eq_true.mpr ⟨t, ht, hu⟩
    simp [execute_tasks_parallel, hany]

/-- Witness for C4 amended: a concrete batch with one completed and one
raising task returns two slots (the raising one converted to a failed
slot), while a concrete batch containing an unfinished task never
returns a result list. -/
theorem pool_exception_converted_timeout_raises_witness :
    (execute_tasks_parallel
        [("p-1", FutureOutcome.completed okEntry),
         ("p-2", (FutureOutcome.raised "boom" : FutureOutcome BatchTaskEntry))] =
      Except.ok [PoolSlot.ok okEntry, PoolSlot.failed "p-2" "boom"]) ∧
    (∀ rs, execute_tasks_parallel
        [("p-1", FutureOutcome.completed okEntry),
         ("p-2", (FutureOutcome.unfinished : FutureOutcome BatchTaskEntry))] ≠
      Except.ok rs) := by
  constructor
  · have h := (pool_exception_converted_timeout_raises
      [("p-1", FutureOutcome.completed okEntry),
       ("p-2", (FutureOutcome.raised "boom" : FutureOutcome BatchTaskEntry))]).1
      (by decide)
    exact h.1
  · exact (pool_exception_converted_timeout_raises
      [("p-1", FutureOutcome.completed okEntry),
       ("p-2", (FutureOutcome.unfinished : FutureOutcome BatchTaskEntry))]).2
      ⟨("p-2", FutureOutcome.unfinished), by simp, rfl⟩

/-- Single dict insertion self._plugins[device_type] = DEVICE_CONFIG
performed by _load_plugins (plugin_manager.py line 58): overwrite the
existing key in place or append a new entry. -/
def dictInsert (t : PluginTable) (k : String) (v : DeviceConfig) : PluginTable :=
  if t.any (fun kv => kv.1 = k) then
    t.map (fun kv => if kv.1 = k then (k, v) else kv)
  else t ++ [(k, v)]

/-- Contents of the shared dict after _load_plugins has inserted the
first i successfully loaded plugins into the freshly cleared dict. -/
def loadPrefix (loaded : List (String × DeviceConfig)) (i : ℕ) : PluginTable :=
  (loaded.take i).foldl (fun t kv => dictInsert t kv.1 kv.2) []

/-- Final table produced by reload_plugins (plugin_manager.py lines
90-93): self._plugins.clear() empties the dict in place, then
_load_plugins re-inserts every successfully loaded plugin. -/
def reload_final (loaded : List (String × DeviceConfig)) : PluginTable :=
  loadPrefix loaded loaded.length

/-- States of the shared self._plugins dict observable by a lookup
concurrent with reload_plugins, in program order: the old table before
clear(), then the empty table right after clear(), then each prefix of
the reloaded table after the corresponding insertion (file I/O and
module execution happen between insertions, so every intermediate state
is exposed). -/
def reload_observable_states (old : PluginTable)
    (loaded : List (String × DeviceConfig)) : List PluginTable :=
  old :: (List.range (loaded.length + 1)).map (fun i => loadPrefix loaded i)

/-- Test fixture: a plugin table holding only the huawei plugin. -/
def huaweiOnlyTable : PluginTable := [("huawei", huaweiDeviceConfig)]

/-- Counterexample to claim C7: reloading the huawei-only table exposes
the in-place cleared empty dict to concurrent lookups; that state is
neither the complete old table nor the complete new table, and
has_plugin huawei is false on it although it is true both before and
after the reload. -/
theorem reload_exposes_partial_table :
    (([] : PluginTable) ∈ reload_observable_states huaweiOnlyTable huaweiOnlyTable) ∧
    ([] : PluginTable) ≠ huaweiOnlyTable ∧
    ([] : PluginTable) ≠ reload_final huaweiOnlyTable ∧
    hasPlugin ([] : PluginTable) "huawei" = false ∧
    hasPlugin huaweiOnlyTable "huawei" = true ∧
    hasPlugin (reload_final huaweiOnlyTable) "huawei" = true := by
  refine ⟨?_, by decide, by decide, rfl, by decide, by decide⟩
  refine List.mem_cons_of_mem huaweiOnlyTable (List.mem_map.mpr ⟨0, ?_, rfl⟩)
  exact List.mem_range.mpr (by omega)

lemma dictInsert_ne_nil (t : PluginTable) (k : String) (v : DeviceConfig) :
    dictInsert t k v ≠ [] := by
  unfold dictInsert
  split
  · intro hmap
    rename_i hany
    rw [List.map_eq_nil_iff] at hmap
    subst hmap
    simp at hany
  · intro happ
    simp at happ

lemma foldl_dictInsert_ne_nil :
    ∀ (l : List (String × DeviceConfig)) (t : PluginTable), t ≠ [] ∨ l ≠ [] →
      l.foldl (fun t kv => dictInsert t kv.1 kv.2) t ≠ [] := by
  intro l
  induction l with
  | nil =>
    intro t h
    rw [List.foldl_nil]
    rcases h with h | h
    · exact h
    · exact absurd rfl h
  | cons kv l ih =>
    intro t _
    rw [List.foldl_cons]
    exact ih _ (Or.inl (dictInsert_ne_nil t kv.1 kv.2))

lemma reload_final_ne_nil (loaded : List (String × DeviceConfig))
    (h : loaded ≠ []) : reload_final loaded ≠ [] := by
  unfold reload_final loadPrefix
  rw [List.take_length]
  exact foldl_dictInsert_ne_nil loaded [] (Or.inr h)

/-- Claim C7 amended: reload_plugins does not build a new table and swap
a single reference; it clears the shared dict in place and repopulates
it entry by entry, so whenever the old and the freshly loaded tables are
nonempty a concurrent lookup can observe a state (the cleared empty
table) that is neither the complete old table nor the complete new one;
the final state is the freshly loaded table, which is nonempty. -/
theorem reload_not_atomic (old : PluginTable)
    (loaded : List (String × DeviceConfig))
    (h1 : old ≠ []) (h2 : loaded ≠ []) :
    reload_final loaded ≠ [] ∧
    ∃ s ∈ reload_observable_states old loaded,
      s ≠ old ∧ s ≠ reload_final loaded := by
  refine ⟨reload_final_ne_nil loaded h2, [], ?_, ?_, ?_⟩
  · refine List.mem_cons_of_mem old (List.mem_map.mpr ⟨0, ?_, rfl⟩)
    exact List.mem_range.mpr (by omega)
  · exact fun hc => h1 hc.symm
  · exact fun hc => reload_final_ne_nil loaded h2 hc.symm

/-- Witness for C7 amended: reloading the concrete huawei-only table
exhibits an observable mid-reload state differing from both the old and
the new table. -/
theorem reload_not_atomic_witness :
    reload_final huaweiOnlyTable ≠ [] ∧
    ∃ s ∈ reload_observable_states huaweiOnlyTable huaweiOnlyTable,
      s ≠ huaweiOnlyTable ∧ s ≠ reload_final huaweiOnlyTable :=
  reload_not_atomic huaweiOnlyTable huaweiOnlyTable (by decide) (by decide)
